import Mathlib

/-!
Shallow embedding of the movies canister (`src/index.ts`): three keyed
stores (movies, users, per-user watchlists), a single-slot session, and
the exposed CRUD / watchlist operations. The storage engine is modelled
as an association list with value semantics: `get` finds the first entry
with the key, `insert` replaces the first entry with the key or appends,
`erase` drops the first entry with the key, `values` lists the stored
records in storage order. Nondeterministic inputs of the runtime (fresh
uuids, `ic.time()`) are passed as explicit arguments.
-/

namespace MoviesCanister

structure Movie where
  id : String
  title : String
  description : String
  genre : String
  imageURL : String
  coverImageURL : String
  createdAt : Nat
  updateAt : Option Nat
deriving DecidableEq, Repr

structure MoviePayload where
  title : String
  description : String
  genre : String
  imageURL : String
  coverImageURL : String
deriving DecidableEq, Repr

structure User where
  id : String
  name : String
  email : String
  password : String
  createdAt : Nat
  updateAt : Option Nat
deriving DecidableEq, Repr

structure UserPayload where
  name : String
  email : String
  password : String
deriving DecidableEq, Repr

structure WatchList where
  id : String
  movies : List String
deriving DecidableEq, Repr

/-- The ordered key-value storage engine (external collaborator):
an association list of key-record pairs. -/
abbrev Store (α : Type) := List (String × α)

def Store.get {α : Type} : Store α → String → Option α
  | [], _ => none
  | (k', v) :: t, k => if k' = k then some v else Store.get t k

def Store.insert {α : Type} : Store α → String → α → Store α
  | [], k, v => [(k, v)]
  | (k', v') :: t, k, v =>
      if k' = k then (k, v) :: t else (k', v') :: Store.insert t k v

def Store.erase {α : Type} : Store α → String → Store α
  | [], _ => []
  | (k', v') :: t, k => if k' = k then t else (k', v') :: Store.erase t k

def Store.values {α : Type} (s : Store α) : List α := s.map (fun p => p.2)

/-- The whole mutable state of the canister: the three `StableBTreeMap`s
and the module-level `currentUser` session slot. -/
structure CanisterState where
  movieStorage : Store Movie
  userStorage : Store User
  userWatchlistStorage : Store WatchList
  currentUser : Option User
deriving DecidableEq, Repr

def emptyState : CanisterState :=
  { movieStorage := [], userStorage := [], userWatchlistStorage := [], currentUser := none }

----------------------------------------------------------------
-- User operations
----------------------------------------------------------------

/-- `getUserByEmail`: linear scan over stored users, first match
(`values().filter(...)[0]`, undefined when no match). -/
def getUserByEmail (s : CanisterState) (email : String) : Option User :=
  ((Store.values s.userStorage).filter (fun user => user.email == email)).head?

/-- JS truthiness of `!payload.name || !payload.email || !payload.password`:
a string is falsy exactly when it is empty. -/
def userPayloadMissing (payload : UserPayload) : Bool :=
  payload.name == "" || payload.email == "" || payload.password == ""

/-- `createUser` (src/index.ts lines 71-104). `uuidUser` and `uuidWl` stand
for the two `uuidv4()` calls, `now` for `ic.time()`. -/
def createUser (uuidUser uuidWl : String) (now : Nat) (payload : UserPayload)
    (s : CanisterState) : Except String String × CanisterState :=
  if userPayloadMissing payload then
    (Except.error "Invalid payload", s)
  else
    match getUserByEmail s payload.email with
    | some _ =>
        (Except.error ("A user with email=" ++ payload.email ++ " already exists!"), s)
    | none =>
        let newUser : User :=
          { id := uuidUser, name := payload.name, email := payload.email,
            password := payload.password, createdAt := now, updateAt := none }
        let newWatchlist : WatchList := { id := uuidWl, movies := [] }
        let s1 := { s with userStorage := Store.insert s.userStorage newUser.id newUser }
        let s2 := { s1 with
          userWatchlistStorage := Store.insert s1.userWatchlistStorage newUser.id newWatchlist }
        (Except.ok ("A user with email=" ++ payload.email ++ " successfully created!"), s2)

/-- `loginUser` (src/index.ts lines 107-124). -/
def loginUser (email password : String) (s : CanisterState) :
    Except String String × CanisterState :=
  match getUserByEmail s email with
  | none => (Except.error ("A user with email=" ++ email ++ " does not exist!"), s)
  | some user =>
      if user.password ≠ password then
        (Except.error "Wrong password!", s)
      else
        (Except.ok "Successfully logged in!", { s with currentUser := some user })

/-- `logoutUser` (src/index.ts lines 126-133). -/
def logoutUser (s : CanisterState) : Except String String × CanisterState :=
  match s.currentUser with
  | none => (Except.error "No user is logged in!", s)
  | some _ => (Except.ok "Successfully logged out!", { s with currentUser := none })

----------------------------------------------------------------
-- Movie operations
----------------------------------------------------------------

/-- `getMovies` (src/index.ts lines 139-145). -/
def getMovies (s : CanisterState) : Except String (List Movie) × CanisterState :=
  (Except.ok (Store.values s.movieStorage), s)

/-- `getMovieById` (src/index.ts lines 148-157). -/
def getMovieById (id : String) (s : CanisterState) : Except String Movie × CanisterState :=
  match Store.get s.movieStorage id with
  | some movie => (Except.ok movie, s)
  | none => (Except.error ("A movie with id=" ++ id ++ " not found"), s)

/-- `getMovieByTitle` (src/index.ts lines 160-170): first stored movie with
an exactly matching title, `NotFound` message otherwise. -/
def getMovieByTitle (title : String) (s : CanisterState) :
    Except String Movie × CanisterState :=
  match ((Store.values s.movieStorage).filter (fun movie => movie.title == title)).head? with
  | none => (Except.error ("A movie with title " ++ title ++ " not found"), s)
  | some movie => (Except.ok movie, s)

/-- JS truthiness of the `createMovie`/`updateMovie` validation: a required
field fails the check exactly when it is the empty string. -/
def moviePayloadMissing (payload : MoviePayload) : Bool :=
  payload.title == "" || payload.description == "" || payload.genre == "" ||
    payload.imageURL == "" || payload.coverImageURL == ""

/-- `createMovie` (src/index.ts lines 173-197). `uuid` stands for `uuidv4()`,
`now` for `ic.time()`. -/
def createMovie (uuid : String) (now : Nat) (payload : MoviePayload)
    (s : CanisterState) : Except String Movie × CanisterState :=
  if moviePayloadMissing payload then
    (Except.error "Missing required fields in payload", s)
  else
    let movie : Movie :=
      { id := uuid, title := payload.title, description := payload.description,
        genre := payload.genre, imageURL := payload.imageURL,
        coverImageURL := payload.coverImageURL, createdAt := now, updateAt := none }
    (Except.ok movie, { s with movieStorage := Store.insert s.movieStorage movie.id movie })

/-- The record spread `{ ...movie, ...payload, updateAt: Opt.Some(ic.time()) }`:
payload fields replace the movie's, `id`/`createdAt` are kept, `updateAt` is set. -/
def applyPayload (movie : Movie) (payload : MoviePayload) (now : Nat) : Movie :=
  { movie with
    title := payload.title, description := payload.description,
    genre := payload.genre, imageURL := payload.imageURL,
    coverImageURL := payload.coverImageURL, updateAt := some now }

/-- `updateMovie` (src/index.ts lines 200-223). -/
def updateMovie (id : String) (payload : MoviePayload) (now : Nat)
    (s : CanisterState) : Except String Movie × CanisterState :=
  if moviePayloadMissing payload then
    (Except.error "Missing required fields in payload", s)
  else
    match Store.get s.movieStorage id with
    | some movie =>
        let newMovie := applyPayload movie payload now
        (Except.ok newMovie, { s with movieStorage := Store.insert s.movieStorage id newMovie })
    | none => (Except.error ("A movie with id=" ++ id ++ " not found"), s)

/-- One step of the cascade body (src/index.ts lines 237-239): the watchlist
record with the deleted id filtered out of its movie list; it is then
inserted back under `watchlist.id` (the watchlist's own generated id, not
the user-id storage key). -/
def cascadeEntry (id : String) (watchlist : WatchList) : WatchList :=
  { watchlist with movies := watchlist.movies.filter (fun movieId => movieId ≠ id) }

/-- `deleteMovieFromWatchlists` (src/index.ts lines 236-241): iterates a
snapshot of the stored watchlists, filters each movie list, and inserts the
result under `watchlist.id`. -/
def deleteMovieFromWatchlists (id : String) (s : CanisterState) : CanisterState :=
  let newStorage :=
    (Store.values s.userWatchlistStorage).foldl
      (fun st watchlist =>
        let wl2 := cascadeEntry id watchlist
        Store.insert st wl2.id wl2)
      s.userWatchlistStorage
  { s with userWatchlistStorage := newStorage }

/-- `deleteMovie` (src/index.ts lines 226-234). -/
def deleteMovie (id : String) (s : CanisterState) : Except String Movie × CanisterState :=
  match Store.get s.movieStorage id with
  | some deletedMovie =>
      let s1 := { s with movieStorage := Store.erase s.movieStorage id }
      (Except.ok deletedMovie, deleteMovieFromWatchlists id s1)
  | none => (Except.error ("A movie with id=" ++ id ++ " not found"), s)

----------------------------------------------------------------
-- Watchlist operations
----------------------------------------------------------------

/-- `getWatchlist` (src/index.ts lines 247-258). -/
def getWatchlist (s : CanisterState) : Except String WatchList × CanisterState :=
  match s.currentUser with
  | none => (Except.error "No user is logged in!", s)
  | some user =>
      match Store.get s.userWatchlistStorage user.id with
      | some watchlist => (Except.ok watchlist, s)
      | none =>
          (Except.error ("A watchlist for user with id=" ++ user.id ++ " not found"), s)

/-- `addMovieToWatchlist` (src/index.ts lines 261-286). The absent-movie
guard `if (!movieStorage.get(movieId))` at line 266 is dead code: this azle
`get` returns a `{Some: ...}`/`{None: null}` variant object (the file's own
`match(movieStorage.get(id), {Some, None})` calls rely on that
representation), and both variants are truthy, so the check never fires and
the operation proceeds to the watchlist lookup for any movie id. -/
def addMovieToWatchlist (movieId : String) (s : CanisterState) :
    Except String String × CanisterState :=
  match s.currentUser with
  | none => (Except.error "No user is logged in!", s)
  | some user =>
      match Store.get s.userWatchlistStorage user.id with
      | some watchlist =>
          if movieId ∈ watchlist.movies then
            (Except.ok ("Movie with id=" ++ movieId ++ " is already in the watchlist"), s)
          else
            let wl2 := { watchlist with movies := watchlist.movies ++ [movieId] }
            (Except.ok ("Successfully added movie with id=" ++ movieId ++ " to watchlist"),
             { s with userWatchlistStorage := Store.insert s.userWatchlistStorage user.id wl2 })
      | none => (Except.error "User's watchlist not found", s)

/-- `removeMovieFromWatchlist` (src/index.ts lines 289-316). The
absent-movie guard at line 296 is the same dead code as in
`addMovieToWatchlist`: the always-truthy variant object means the operation
proceeds to the watchlist lookup for any movie id. -/
def removeMovieFromWatchlist (movieId : String) (s : CanisterState) :
    Except String String × CanisterState :=
  match s.currentUser with
  | none => (Except.error "No user is logged in!", s)
  | some user =>
      match Store.get s.userWatchlistStorage user.id with
      | some watchlist =>
          if movieId ∉ watchlist.movies then
            (Except.ok ("Movie with id=" ++ movieId ++ " is not in the watchlist"), s)
          else
            let wl2 := { watchlist with
              movies := watchlist.movies.filter (fun id => id ≠ movieId) }
            (Except.ok ("Successfully removed movie with id=" ++ movieId ++ " from watchlist"),
             { s with userWatchlistStorage := Store.insert s.userWatchlistStorage user.id wl2 })
      | none => (Except.ok "", s)

----------------------------------------------------------------
-- The operations as a single step type (for whole-system invariants)
----------------------------------------------------------------

/-- One invocation of any exposed operation, with the runtime-supplied
nondeterministic inputs (uuids, time) as constructor arguments. -/
inductive Op where
  | createUserOp (uuidUser uuidWl : String) (now : Nat) (payload : UserPayload)
  | loginUserOp (email password : String)
  | logoutUserOp
  | getMoviesOp
  | getMovieByIdOp (id : String)
  | getMovieByTitleOp (title : String)
  | createMovieOp (uuid : String) (now : Nat) (payload : MoviePayload)
  | updateMovieOp (id : String) (payload : MoviePayload) (now : Nat)
  | deleteMovieOp (id : String)
  | getWatchlistOp
  | addMovieToWatchlistOp (movieId : String)
  | removeMovieFromWatchlistOp (movieId : String)

/-- The state transition performed by one operation invocation. -/
def applyOp : Op → CanisterState → CanisterState
  | Op.createUserOp a b n p, s => (createUser a b n p s).2
  | Op.loginUserOp e pw, s => (loginUser e pw s).2
  | Op.logoutUserOp, s => (logoutUser s).2
  | Op.getMoviesOp, s => (getMovies s).2
  | Op.getMovieByIdOp i, s => (getMovieById i s).2
  | Op.getMovieByTitleOp t, s => (getMovieByTitle t s).2
  | Op.createMovieOp u n p, s => (createMovie u n p s).2
  | Op.updateMovieOp i p n, s => (updateMovie i p n s).2
  | Op.deleteMovieOp i, s => (deleteMovie i s).2
  | Op.getWatchlistOp, s => (getWatchlist s).2
  | Op.addMovieToWatchlistOp m, s => (addMovieToWatchlist m s).2
  | Op.removeMovieFromWatchlistOp m, s => (removeMovieFromWatchlist m s).2

/-- Every stored user id has a watchlist entry under the same key. -/
def hasWatchlistInv (s : CanisterState) : Prop :=
  ∀ p ∈ s.userStorage, (Store.get s.userWatchlistStorage p.1).isSome = true

/-- Every stored movie has a non-empty title (established by the
`createMovie`/`updateMovie` validation). -/
def titlesNonempty (s : CanisterState) : Prop :=
  ∀ mv ∈ Store.values s.movieStorage, mv.title ≠ ""

----------------------------------------------------------------
-- Concrete fixtures
----------------------------------------------------------------

def movieM1 : Movie :=
  { id := "m1", title := "The Godfather", description := "Italian mafia", genre := "criminal",
    imageURL := "img", coverImageURL := "cover", createdAt := 5, updateAt := none }

def movieM2 : Movie :=
  { id := "m2", title := "The Godfather", description := "Part II", genre := "criminal",
    imageURL := "img2", coverImageURL := "cover2", createdAt := 6, updateAt := none }

def userU1 : User :=
  { id := "u1", name := "John Doe", email := "john@x.com", password := "pw",
    createdAt := 1, updateAt := none }

def watchlistW1 : WatchList := { id := "w1", movies := ["m1"] }

/-- A user who has added `m1` to their watchlist, with the movie stored. -/
def stateWatched : CanisterState :=
  { movieStorage := [("m1", movieM1)], userStorage := [("u1", userU1)],
    userWatchlistStorage := [("u1", watchlistW1)], currentUser := some userU1 }

/-- Logged-in user with an empty watchlist; movies `m1`, `m2` stored. -/
def stateLoggedIn : CanisterState :=
  { movieStorage := [("m1", movieM1), ("m2", movieM2)], userStorage := [("u1", userU1)],
    userWatchlistStorage := [("u1", { id := "w1", movies := [] })],
    currentUser := some userU1 }

/-- Logged-in user whose watchlist record is missing from storage. -/
def stateNoWatchlist : CanisterState :=
  { movieStorage := [("m1", movieM1)], userStorage := [("u1", userU1)],
    userWatchlistStorage := [], currentUser := some userU1 }

def validMoviePayload : MoviePayload :=
  { title := "New Title", description := "New Desc", genre := "drama",
    imageURL := "i2", coverImageURL := "c2" }

def emptyTitlePayload : MoviePayload :=
  { title := "", description := "d", genre := "g", imageURL := "i", coverImageURL := "c" }

def whitespaceTitlePayload : MoviePayload :=
  { title := " ", description := "d", genre := "g", imageURL := "i", coverImageURL := "c" }

def dupEmailNoNamePayload : UserPayload :=
  { name := "", email := "john@x.com", password := "secret" }

def dupEmailValidPayload : UserPayload :=
  { name := "Jane", email := "john@x.com", password := "secret" }

----------------------------------------------------------------
-- Storage-engine lemmas
----------------------------------------------------------------

theorem Store.get_insert_self {α : Type} (s : Store α) (k : String) (v : α) :
    Store.get (Store.insert s k v) k = some v := by
  induction s with
  | nil => simp [Store.insert, Store.get]
  | cons q t ih =>
    obtain ⟨ka, va⟩ := q
    by_cases h : ka = k
    · simp [Store.insert, h, Store.get]
    · simp [Store.insert, h, Store.get, ih]

theorem Store.get_insert_of_ne {α : Type} (s : Store α) {k k' : String} (v : α)
    (h : k ≠ k') : Store.get (Store.insert s k v) k' = Store.get s k' := by
  induction s with
  | nil => simp [Store.insert, Store.get, h]
  | cons q t ih =>
    obtain ⟨ka, va⟩ := q
    by_cases hk : ka = k
    · subst hk
      simp [Store.insert, Store.get, h]
    · by_cases hk' : ka = k'
      · simp [Store.insert, hk, Store.get, hk', Ne.symm h]
      · simp [Store.insert, hk, Store.get, hk', ih]

theorem Store.isSome_get_insert {α : Type} (s : Store α) (k k' : String) (v : α)
    (h : (Store.get s k').isSome = true) :
    (Store.get (Store.insert s k v) k').isSome = true := by
  by_cases hk : k = k'
  · subst hk
    simp [Store.get_insert_self]
  · rw [Store.get_insert_of_ne s v hk]
    exact h

theorem Store.isSome_get_foldl_insert {α β : Type} (keyf : β → String) (valf : β → α)
    (l : List β) (st : Store α) (k : String)
    (h : (Store.get st k).isSome = true) :
    (Store.get (l.foldl (fun acc b => Store.insert acc (keyf b) (valf b)) st) k).isSome
      = true := by
  induction l generalizing st with
  | nil => exact h
  | cons b t ih =>
    rw [List.foldl_cons]
    exact ih _ (Store.isSome_get_insert st (keyf b) k (valf b) h)

theorem Store.mem_insert {α : Type} {s : Store α} {k : String} {v : α} {p : String × α}
    (hp : p ∈ Store.insert s k v) : p = (k, v) ∨ p ∈ s := by
  induction s with
  | nil =>
    simp [Store.insert] at hp
    exact Or.inl hp
  | cons q t ih =>
    obtain ⟨ka, va⟩ := q
    by_cases hk : ka = k
    · subst hk
      simp only [Store.insert, if_pos rfl] at hp
      rcases List.mem_cons.mp hp with h1 | h1
      · exact Or.inl h1
      · exact Or.inr (List.mem_cons_of_mem _ h1)
    · simp only [Store.insert, if_neg hk] at hp
      rcases List.mem_cons.mp hp with h1 | h1
      · exact Or.inr (h1 ▸ List.mem_cons_self _ _)
      · rcases ih h1 with h2 | h2
        · exact Or.inl h2
        · exact Or.inr (List.mem_cons_of_mem _ h2)

theorem Store.mem_values_insert {α : Type} {s : Store α} {k : String} {v w : α}
    (hw : w ∈ Store.values (Store.insert s k v)) : w = v ∨ w ∈ Store.values s := by
  obtain ⟨p, hp, hpw⟩ := List.mem_map.mp hw
  rcases Store.mem_insert hp with h1 | h1
  · subst h1
    exact Or.inl hpw.symm
  · exact Or.inr (hpw ▸ List.mem_map.mpr ⟨p, h1, rfl⟩)

theorem Store.mem_erase {α : Type} {s : Store α} {k : String} {p : String × α}
    (hp : p ∈ Store.erase s k) : p ∈ s := by
  induction s with
  | nil => simp [Store.erase] at hp
  | cons q t ih =>
    obtain ⟨ka, va⟩ := q
    by_cases hk : ka = k
    · simp only [Store.erase, if_pos hk] at hp
      exact List.mem_cons_of_mem _ hp
    · simp only [Store.erase, if_neg hk] at hp
      rcases List.mem_cons.mp hp with h1 | h1
      · exact h1 ▸ List.mem_cons_self _ _
      · exact List.mem_cons_of_mem _ (ih h1)

theorem Store.mem_values_erase {α : Type} {s : Store α} {k : String} {w : α}
    (hw : w ∈ Store.values (Store.erase s k)) : w ∈ Store.values s := by
  obtain ⟨p, hp, hpw⟩ := List.mem_map.mp hw
  exact hpw ▸ List.mem_map.mpr ⟨p, Store.mem_erase hp, rfl⟩

theorem count_filter_ne (l : List String) (a x : String) (h : x ≠ a) :
    (l.filter (fun y => y ≠ a)).count x = l.count x := by
  induction l with
  | nil => rfl
  | cons b t ih =>
    by_cases hb : b = a
    · subst hb
      rw [List.filter_cons_of_neg (by simp), List.count_cons_of_ne h, ih]
    · rw [List.filter_cons_of_pos (by simp [hb]), List.count_cons, List.count_cons, ih]

theorem hasWatchlistInv_of_eq_mono {s s' : CanisterState}
    (hu : s'.userStorage = s.userStorage)
    (hw : ∀ k, (Store.get s.userWatchlistStorage k).isSome = true →
        (Store.get s'.userWatchlistStorage k).isSome = true)
    (h : hasWatchlistInv s) : hasWatchlistInv s' := by
  intro p hp
  rw [hu] at hp
  exact hw _ (h p hp)

----------------------------------------------------------------
-- Claims
----------------------------------------------------------------

/-- C1 (code-bug evidence): deleting movie `m1` returns the removed record,
but the cascade writes each filtered watchlist back under the watchlist's own
generated id (`"w1"`) instead of the user-id storage key (`"u1"`), so the
watchlist stored for user `u1` still contains the deleted id `m1`, and a
spurious entry appears under key `"w1"`. -/
theorem c1_deleteMovie_cascade_misses_user_key :
    (deleteMovie "m1" stateWatched).1 = Except.ok movieM1 ∧
    Store.get (deleteMovie "m1" stateWatched).2.userWatchlistStorage "u1" =
      some watchlistW1 ∧
    "m1" ∈ watchlistW1.movies ∧
    Store.get (deleteMovie "m1" stateWatched).2.userWatchlistStorage "w1" =
      some { id := "w1", movies := [] } := by
  refine ⟨rfl, rfl, ?_, rfl⟩
  simp [watchlistW1]

/-- C8: a successful `createUser` inserts exactly one user record keyed by the
fresh user id and one empty watchlist keyed by that same id (all other keys
and the movie store untouched), and every operation preserves the invariant
that each stored user id has a watchlist entry under its key. -/
theorem c8_createUser_shape_and_watchlist_key_invariant :
    (∀ (uuidUser uuidWl : String) (now : Nat) (payload : UserPayload) (s : CanisterState)
        (msg : String) (s' : CanisterState),
        createUser uuidUser uuidWl now payload s = (Except.ok msg, s') →
        Store.get s'.userStorage uuidUser =
          some { id := uuidUser, name := payload.name, email := payload.email,
                 password := payload.password, createdAt := now, updateAt := none } ∧
        Store.get s'.userWatchlistStorage uuidUser = some { id := uuidWl, movies := [] } ∧
        (∀ k, k ≠ uuidUser →
          Store.get s'.userStorage k = Store.get s.userStorage k ∧
          Store.get s'.userWatchlistStorage k = Store.get s.userWatchlistStorage k) ∧
        s'.movieStorage = s.movieStorage) ∧
    (∀ (op : Op) (s : CanisterState), hasWatchlistInv s → hasWatchlistInv (applyOp op s)) := by
  constructor
  · intro uuidUser uuidWl now payload s msg s' h
    simp only [createUser] at h
    split at h
    · simp at h
    · split at h
      · simp at h
      · rw [Prod.mk.injEq] at h
        obtain ⟨-, hs⟩ := h
        subst hs
        refine ⟨Store.get_insert_self _ _ _, Store.get_insert_self _ _ _, ?_, rfl⟩
        intro k hk
        exact ⟨Store.get_insert_of_ne _ _ (Ne.symm hk),
          Store.get_insert_of_ne _ _ (Ne.symm hk)⟩
  · intro op s h
    cases op with
    | createUserOp a b n p =>
      simp only [applyOp, createUser]
      split
      · exact h
      · split
        · exact h
        · intro q hq
          rcases Store.mem_insert hq with h1 | h1
          · subst h1
            simp [Store.get_insert_self]
          · exact Store.isSome_get_insert _ _ _ _ (h q h1)
    | loginUserOp e pw =>
      simp only [applyOp, loginUser]
      split
      · exact h
      · split
        · exact h
        · exact hasWatchlistInv_of_eq_mono rfl (fun k hk => hk) h
    | logoutUserOp =>
      simp only [applyOp, logoutUser]
      split
      · exact h
      · exact hasWatchlistInv_of_eq_mono rfl (fun k hk => hk) h
    | getMoviesOp => exact h
    | getMovieByIdOp i =>
      simp only [applyOp, getMovieById]
      split
      · exact h
      · exact h
    | getMovieByTitleOp t =>
      simp only [applyOp, getMovieByTitle]
      split
      · exact h
      · exact h
    | createMovieOp u n p =>
      simp only [applyOp, createMovie]
      split
      · exact h
      · exact hasWatchlistInv_of_eq_mono rfl (fun k hk => hk) h
    | updateMovieOp i p n =>
      simp only [applyOp, updateMovie]
      split
      · exact h
      · split
        · exact hasWatchlistInv_of_eq_mono rfl (fun k hk => hk) h
        · exact h
    | deleteMovieOp i =>
      simp only [applyOp, deleteMovie]
      split
      · refine hasWatchlistInv_of_eq_mono ?_ (fun k hk => ?_) h
        · rfl
        · exact Store.isSome_get_foldl_insert
            (fun wl => (cascadeEntry i wl).id) (fun wl => cascadeEntry i wl) _ _ _ hk
      · exact h
    | getWatchlistOp =>
      simp only [applyOp, getWatchlist]
      split
      · exact h
      · split
        · exact h
        · exact h
    | addMovieToWatchlistOp m =>
      simp only [applyOp, addMovieToWatchlist]
      split
      · exact h
      · split
        · split
          · exact h
          · refine hasWatchlistInv_of_eq_mono ?_ (fun k hk => ?_) h
            · rfl
            · exact Store.isSome_get_insert _ _ _ _ hk
        · exact h
    | removeMovieFromWatchlistOp m =>
      simp only [applyOp, removeMovieFromWatchlist]
      split
      · exact h
      · split
        · split
          · exact h
          · refine hasWatchlistInv_of_eq_mono ?_ (fun k hk => ?_) h
            · rfl
            · exact Store.isSome_get_insert _ _ _ _ hk
        · exact h

/-- Witness for C8 at concrete inputs: creating a user on the empty state
yields the empty watchlist under the fresh user id, and the invariant holds
after the corresponding operation step. -/
theorem c8_createUser_shape_and_watchlist_key_invariant_witness :
    Store.get (createUser "u9" "w9" 3 dupEmailValidPayload emptyState).2.userWatchlistStorage
      "u9" = some { id := "w9", movies := [] } ∧
    hasWatchlistInv (applyOp (Op.createUserOp "u9" "w9" 3 dupEmailValidPayload) emptyState) := by
  constructor
  · exact (c8_createUser_shape_and_watchlist_key_invariant.1 "u9" "w9" 3
      dupEmailValidPayload emptyState _ _ rfl).2.1
  · refine c8_createUser_shape_and_watchlist_key_invariant.2
      (Op.createUserOp "u9" "w9" 3 dupEmailValidPayload) emptyState ?_
    intro p hp
    simp [emptyState] at hp

/-- C4 (code-bug evidence): the Unauthorized check works as claimed (last
conjunct), but the absent-movie NotFound guard is dead code. With user `u1`
logged in and no movie `"zz"` in the catalog, `addMovieToWatchlist "zz"`
succeeds and appends the nonexistent id to the stored watchlist (a mutation
the claim forbids), and `removeMovieFromWatchlist "zz"` proceeds past the
guard to the "not in the watchlist" no-op success instead of the NotFound
error. -/
theorem c4_absent_movie_guard_is_dead_code :
    Store.get stateLoggedIn.movieStorage "zz" = none ∧
    (addMovieToWatchlist "zz" stateLoggedIn).1 =
      Except.ok ("Successfully added movie with id=" ++ "zz" ++ " to watchlist") ∧
    Store.get (addMovieToWatchlist "zz" stateLoggedIn).2.userWatchlistStorage "u1" =
      some { id := "w1", movies := ["zz"] } ∧
    removeMovieFromWatchlist "zz" stateLoggedIn =
      (Except.ok ("Movie with id=" ++ "zz" ++ " is not in the watchlist"), stateLoggedIn) ∧
    addMovieToWatchlist "zz" emptyState =
      (Except.error "No user is logged in!", emptyState) :=
  ⟨rfl, rfl, rfl, rfl, rfl⟩

/-- C9: with an active session, an existing movie, and the logged-in user's
watchlist record absent from storage, `addMovieToWatchlist` fails with the
"User's watchlist not found" error while `removeMovieFromWatchlist` returns
a success carrying the empty message — the two operations disagree on the
outcome kind for the same state. -/
theorem c9_missing_watchlist_outcomes_disagree (movieId : String) (s : CanisterState)
    (user : User)
    (hc : s.currentUser = some user)
    ( _hm : (Store.get s.movieStorage movieId).isSome = true)
    (hw : Store.get s.userWatchlistStorage user.id = none) :
    addMovieToWatchlist movieId s = (Except.error "User's watchlist not found", s) ∧
    removeMovieFromWatchlist movieId s = (Except.ok "", s) := by
  constructor
  · simp [addMovieToWatchlist, hc, hw]
  · simp [removeMovieFromWatchlist, hc, hw]

/-- Witness for C9 at a concrete state with a missing watchlist record. -/
theorem c9_missing_watchlist_outcomes_disagree_witness :
    addMovieToWatchlist "m1" stateNoWatchlist =
      (Except.error "User's watchlist not found", stateNoWatchlist) ∧
    removeMovieFromWatchlist "m1" stateNoWatchlist = (Except.ok "", stateNoWatchlist) :=
  c9_missing_watchlist_outcomes_disagree "m1" stateNoWatchlist userU1 rfl rfl rfl

/-- C5: for a logged-in user with an existing movie `m` and a stored
watchlist in which `m` occurs at most once, calling `addMovieToWatchlist m`
twice yields a watchlist containing `m` exactly once, and the second call is
a no-op success reporting the "already in the watchlist" outcome; and
`removeMovieFromWatchlist m` when `m` is not in the watchlist is a no-op
success reporting the "not in the watchlist" outcome. -/
theorem c5_add_twice_once_and_remove_absent_noop
    (m : String) (s : CanisterState) (user : User) (wl : WatchList)
    (hc : s.currentUser = some user)
    ( _hm : (Store.get s.movieStorage m).isSome = true)
    (hw : Store.get s.userWatchlistStorage user.id = some wl)
    (hcount : wl.movies.count m ≤ 1) :
    (∃ r1 s1 wl1,
      addMovieToWatchlist m s = (r1, s1) ∧
      Store.get s1.userWatchlistStorage user.id = some wl1 ∧
      wl1.movies.count m = 1 ∧
      addMovieToWatchlist m s1 =
        (Except.ok ("Movie with id=" ++ m ++ " is already in the watchlist"), s1)) ∧
    (m ∉ wl.movies →
      removeMovieFromWatchlist m s =
        (Except.ok ("Movie with id=" ++ m ++ " is not in the watchlist"), s)) := by
  constructor
  · by_cases hmem : m ∈ wl.movies
    · refine ⟨Except.ok ("Movie with id=" ++ m ++ " is already in the watchlist"), s, wl,
        ?_, hw, ?_, ?_⟩
      · simp [addMovieToWatchlist, hc, hw, hmem]
      · have h1 : 0 < wl.movies.count m := List.count_pos_iff.mpr hmem
        omega
      · simp [addMovieToWatchlist, hc, hw, hmem]
    · refine ⟨Except.ok ("Successfully added movie with id=" ++ m ++ " to watchlist"),
        { s with userWatchlistStorage := Store.insert s.userWatchlistStorage user.id { id := wl.id, movies := wl.movies ++ [m] } },
        { id := wl.id, movies := wl.movies ++ [m] }, ?_, ?_, ?_, ?_⟩
      · simp [addMovieToWatchlist, hc, hw, hmem]
      · exact Store.get_insert_self _ _ _
      · have h0 : wl.movies.count m = 0 := List.count_eq_zero.mpr hmem
        simp [List.count_append, h0]
      · simp [addMovieToWatchlist, hc, Store.get_insert_self]
  · intro hmem
    simp [removeMovieFromWatchlist, hc, hw, hmem]

/-- Witness for C5: adding `m1` twice on a logged-in user with an empty
watchlist, and removing the never-added `m2`. -/
theorem c5_add_twice_once_and_remove_absent_noop_witness :
    (∃ r1 s1 wl1,
      addMovieToWatchlist "m1" stateLoggedIn = (r1, s1) ∧
      Store.get s1.userWatchlistStorage userU1.id = some wl1 ∧
      wl1.movies.count "m1" = 1 ∧
      addMovieToWatchlist "m1" s1 =
        (Except.ok ("Movie with id=" ++ "m1" ++ " is already in the watchlist"), s1)) ∧
    removeMovieFromWatchlist "m2" stateLoggedIn =
      (Except.ok ("Movie with id=" ++ "m2" ++ " is not in the watchlist"), stateLoggedIn) := by
  have h := c5_add_twice_once_and_remove_absent_noop "m1" stateLoggedIn userU1
    { id := "w1", movies := [] } rfl rfl rfl (by simp)
  have h2 := c5_add_twice_once_and_remove_absent_noop "m2" stateLoggedIn userU1
    { id := "w1", movies := [] } rfl rfl rfl (by simp)
  exact ⟨h.1, h2.2 (by simp)⟩

/-- C10: both `removeMovieFromWatchlist` and the per-watchlist list
computation of the delete cascade produce the new movies list as a filter of
the old one: the removed id is gone, every other id keeps its exact
multiplicity, and the remaining ids keep their relative order (the new list
is a sublist of the old). -/
theorem c10_removal_is_order_preserving_filter
    (removedId : String) (wl : WatchList) (s : CanisterState) (user : User)
    (hc : s.currentUser = some user)
    ( _hm : (Store.get s.movieStorage removedId).isSome = true)
    (hw : Store.get s.userWatchlistStorage user.id = some wl)
    (hmem : removedId ∈ wl.movies) :
    ((cascadeEntry removedId wl).movies = wl.movies.filter (fun x => x ≠ removedId) ∧
      removedId ∉ (cascadeEntry removedId wl).movies ∧
      (∀ x, x ≠ removedId →
        (cascadeEntry removedId wl).movies.count x = wl.movies.count x) ∧
      (cascadeEntry removedId wl).movies.Sublist wl.movies) ∧
    (∃ wl',
      Store.get (removeMovieFromWatchlist removedId s).2.userWatchlistStorage user.id =
        some wl' ∧
      wl'.movies = wl.movies.filter (fun x => x ≠ removedId) ∧
      removedId ∉ wl'.movies ∧
      (∀ x, x ≠ removedId → wl'.movies.count x = wl.movies.count x) ∧
      wl'.movies.Sublist wl.movies) := by
  constructor
  · refine ⟨rfl, ?_, ?_, List.filter_sublist _⟩
    · simp [cascadeEntry, List.mem_filter]
    · intro x hx
      exact count_filter_ne wl.movies removedId x hx
  · refine ⟨{ id := wl.id, movies := wl.movies.filter (fun x => x ≠ removedId) },
      ?_, rfl, ?_, ?_, List.filter_sublist _⟩
    · simp [removeMovieFromWatchlist, hc, hw, hmem, Store.get_insert_self]
    · simp [List.mem_filter]
    · intro x hx
      exact count_filter_ne wl.movies removedId x hx

/-- Witness for C10: removing `m1` from the watchlist that contains it. -/
theorem c10_removal_is_order_preserving_filter_witness :
    "m1" ∈ watchlistW1.movies ∧
    "m1" ∉ (cascadeEntry "m1" watchlistW1).movies ∧
    (∃ wl',
      Store.get (removeMovieFromWatchlist "m1" stateWatched).2.userWatchlistStorage
        userU1.id = some wl' ∧
      wl'.movies = watchlistW1.movies.filter (fun x => x ≠ "m1")) := by
  have h := c10_removal_is_order_preserving_filter "m1" watchlistW1 stateWatched userU1
    rfl rfl rfl (by simp [watchlistW1])
  obtain ⟨wl', h1, h2, -⟩ := h.2
  exact ⟨by simp [watchlistW1], h.1.2.1, wl', h1, h2⟩

/-- C2 counterexample: on an absent id with an invalid payload, `updateMovie`
fails with the ValidationError message, not the NotFound message the claim
demands for every id and payload (validation runs before the lookup). -/
theorem c2_counterexample_validation_precedes_notfound :
    (updateMovie "m1" emptyTitlePayload 7 emptyState).1 =
      Except.error "Missing required fields in payload" ∧
    ("Missing required fields in payload" : String) ≠
      "A movie with id=" ++ "m1" ++ " not found" := by
  constructor
  · rfl
  · decide

/-- C2 amended: with a valid payload (validation passes), `updateMovie` on an
absent id fails with the NotFound message and leaves the state unchanged,
and on a present id it replaces all payload fields, preserves id and
createdAt, refreshes the updated timestamp, persists, and returns the new
record; with an invalid payload it fails with the ValidationError message
and leaves the state unchanged. -/
theorem c2_updateMovie_notfound_and_returns_new_record
    (id : String) (payload : MoviePayload) (now : Nat) (s : CanisterState) :
    (moviePayloadMissing payload = true →
      updateMovie id payload now s =
        (Except.error "Missing required fields in payload", s)) ∧
    (moviePayloadMissing payload = false →
      Store.get s.movieStorage id = none →
      updateMovie id payload now s =
        (Except.error ("A movie with id=" ++ id ++ " not found"), s)) ∧
    (∀ movie, moviePayloadMissing payload = false →
      Store.get s.movieStorage id = some movie →
      updateMovie id payload now s =
        (Except.ok (applyPayload movie payload now), { s with movieStorage := Store.insert s.movieStorage id (applyPayload movie payload now) }) ∧
      (applyPayload movie payload now).id = movie.id ∧
      (applyPayload movie payload now).createdAt = movie.createdAt ∧
      (applyPayload movie payload now).title = payload.title ∧
      (applyPayload movie payload now).description = payload.description ∧
      (applyPayload movie payload now).genre = payload.genre ∧
      (applyPayload movie payload now).imageURL = payload.imageURL ∧
      (applyPayload movie payload now).coverImageURL = payload.coverImageURL ∧
      (applyPayload movie payload now).updateAt = some now ∧
      Store.get (updateMovie id payload now s).2.movieStorage id =
        some (applyPayload movie payload now)) := by
  refine ⟨?_, ?_, ?_⟩
  · intro hmiss
    simp [updateMovie, hmiss]
  · intro hmiss hnone
    simp [updateMovie, hmiss, hnone]
  · intro movie hmiss hsome
    refine ⟨?_, rfl, rfl, rfl, rfl, rfl, rfl, rfl, rfl, ?_⟩
    · simp [updateMovie, hmiss, hsome]
    · simp [updateMovie, hmiss, hsome, Store.get_insert_self]

/-- Witness for C2 (amended): updating stored movie `m1` with a valid payload
returns the refreshed record, and updating an unknown id on the empty state
fails with the NotFound message. -/
theorem c2_updateMovie_notfound_and_returns_new_record_witness :
    (updateMovie "m1" validMoviePayload 9 stateLoggedIn).1 =
      Except.ok (applyPayload movieM1 validMoviePayload 9) ∧
    updateMovie "zz" validMoviePayload 9 emptyState =
      (Except.error ("A movie with id=" ++ "zz" ++ " not found"), emptyState) := by
  constructor
  · have h := (c2_updateMovie_notfound_and_returns_new_record "m1" validMoviePayload 9
      stateLoggedIn).2.2 movieM1 rfl rfl
    rw [h.1]
  · exact (c2_updateMovie_notfound_and_returns_new_record "zz" validMoviePayload 9
      emptyState).2.1 rfl rfl

/-- C3 counterexample: a payload carrying the already-stored email but an
empty name is rejected with the "Invalid payload" message (ValidationError),
not with the Conflict error the claim demands for every duplicate-email
payload. -/
theorem c3_counterexample_validation_precedes_conflict :
    (createUser "u2" "w2" 9 dupEmailNoNamePayload stateLoggedIn).1 =
      Except.error "Invalid payload" ∧
    ("Invalid payload" : String) ≠
      "A user with email=" ++ dupEmailNoNamePayload.email ++ " already exists!" := by
  constructor
  · rfl
  · decide

/-- C3 amended: when some stored user already has the payload's email,
`createUser` leaves the whole state unchanged — no user record inserted, no
watchlist created, the existing user's watchlist untouched; the failure is
the Conflict message when the payload is valid, and the "Invalid payload"
ValidationError message when a required field is empty. -/
theorem c3_duplicate_email_no_partial_state
    (uuidUser uuidWl : String) (now : Nat) (payload : UserPayload) (s : CanisterState)
    (hdup : ∃ u ∈ Store.values s.userStorage, u.email = payload.email) :
    (createUser uuidUser uuidWl now payload s).2 = s ∧
    (userPayloadMissing payload = false →
      (createUser uuidUser uuidWl now payload s).1 =
        Except.error ("A user with email=" ++ payload.email ++ " already exists!")) ∧
    (userPayloadMissing payload = true →
      (createUser uuidUser uuidWl now payload s).1 = Except.error "Invalid payload") := by
  have hbe : ∃ u0, getUserByEmail s payload.email = some u0 := by
    obtain ⟨u, hu, he⟩ := hdup
    have hmem : u ∈ (Store.values s.userStorage).filter
        (fun user => user.email == payload.email) :=
      List.mem_filter.mpr ⟨hu, by simp [he]⟩
    cases hfl : (Store.values s.userStorage).filter
        (fun user => user.email == payload.email) with
    | nil =>
      rw [hfl] at hmem
      exact absurd hmem (List.not_mem_nil u)
    | cons a t => exact ⟨a, by simp [getUserByEmail, hfl]⟩
  obtain ⟨u0, hu0⟩ := hbe
  refine ⟨?_, ?_, ?_⟩
  · by_cases hp : userPayloadMissing payload = true
    · simp [createUser, hp]
    · simp [createUser, hp, hu0]
  · intro hp
    simp [createUser, hp, hu0]
  · intro hp
    simp [createUser, hp]

/-- Witness for C3 (amended): re-registering the stored email with a valid
payload is a Conflict and leaves the state exactly as it was. -/
theorem c3_duplicate_email_no_partial_state_witness :
    (createUser "u2" "w2" 9 dupEmailValidPayload stateLoggedIn).2 = stateLoggedIn ∧
    (createUser "u2" "w2" 9 dupEmailValidPayload stateLoggedIn).1 =
      Except.error ("A user with email=" ++ dupEmailValidPayload.email ++ " already exists!") := by
  have h := c3_duplicate_email_no_partial_state "u2" "w2" 9 dupEmailValidPayload stateLoggedIn
    ⟨userU1, by simp [stateLoggedIn, Store.values], rfl⟩
  exact ⟨h.1, h.2.1 rfl⟩

/-- C6 counterexample: a payload whose title is the single space " "
(whitespace-only, not empty) is accepted — `createMovie` returns `Ok` and
inserts the record — contradicting the claim that any whitespace-only
required field fails with a ValidationError. -/
theorem c6_counterexample_whitespace_title_accepted :
    (createMovie "mx" 7 whitespaceTitlePayload emptyState).1 =
      Except.ok { id := "mx", title := " ", description := "d", genre := "g",
                  imageURL := "i", coverImageURL := "c", createdAt := 7, updateAt := none } ∧
    Store.get (createMovie "mx" 7 whitespaceTitlePayload emptyState).2.movieStorage "mx" =
      some { id := "mx", title := " ", description := "d", genre := "g",
             imageURL := "i", coverImageURL := "c", createdAt := 7, updateAt := none } := by
  constructor
  · rfl
  · rfl

/-- C6 amended: `createMovie` fails with the ValidationError message and
inserts nothing exactly when some required field is the empty string (the
JS falsiness check); whitespace-only non-empty fields are accepted. -/
theorem c6_empty_required_field_rejected
    (uuid : String) (now : Nat) (payload : MoviePayload) (s : CanisterState)
    (h : payload.title = "" ∨ payload.description = "" ∨ payload.genre = "" ∨
      payload.imageURL = "" ∨ payload.coverImageURL = "") :
    createMovie uuid now payload s =
      (Except.error "Missing required fields in payload", s) := by
  have hm : moviePayloadMissing payload = true := by
    simp only [moviePayloadMissing, Bool.or_eq_true, beq_iff_eq]
    tauto
  simp [createMovie, hm]

/-- Witness for C6 (amended): an empty title is rejected and the state is
unchanged. -/
theorem c6_empty_required_field_rejected_witness :
    createMovie "mx" 7 emptyTitlePayload emptyState =
      (Except.error "Missing required fields in payload", emptyState) :=
  c6_empty_required_field_rejected "mx" 7 emptyTitlePayload emptyState (Or.inl rfl)

/-- C7: `getMovieByTitle` fails with the NotFound message when no stored
movie has the title; it returns the first stored movie with the title in
storage iteration order; on any state whose stored movies all have non-empty
titles the empty title fails with the NotFound message; and that
titles-non-empty invariant is preserved by every operation (so it holds on
every state reachable through the API). -/
theorem c7_getMovieByTitle_first_match_and_empty_title (title : String) (s : CanisterState) :
    ((∀ mv ∈ Store.values s.movieStorage, mv.title ≠ title) →
      getMovieByTitle title s =
        (Except.error ("A movie with title " ++ title ++ " not found"), s)) ∧
    (∀ pre mv post, Store.values s.movieStorage = pre ++ mv :: post →
      (∀ x ∈ pre, x.title ≠ title) → mv.title = title →
      getMovieByTitle title s = (Except.ok mv, s)) ∧
    (titlesNonempty s →
      getMovieByTitle "" s =
        (Except.error ("A movie with title " ++ "" ++ " not found"), s)) ∧
    (∀ (op : Op) (s' : CanisterState), titlesNonempty s' → titlesNonempty (applyOp op s')) := by
  refine ⟨?_, ?_, ?_, ?_⟩
  · intro hall
    have hfl : (Store.values s.movieStorage).filter (fun movie => movie.title == title)
        = [] :=
      List.filter_eq_nil_iff.mpr (fun a ha => by simp [hall a ha])
    simp [getMovieByTitle, hfl]
  · intro pre mv post hsplit hpre hmv
    have hfpre : pre.filter (fun movie => movie.title == title) = [] :=
      List.filter_eq_nil_iff.mpr (fun a ha => by simp [hpre a ha])
    simp [getMovieByTitle, hsplit, List.filter_append, hfpre, List.filter_cons, hmv]
  · intro hinv
    have hfl : (Store.values s.movieStorage).filter (fun movie => movie.title == "") = [] :=
      List.filter_eq_nil_iff.mpr (fun a ha => by simp [hinv a ha])
    simp [getMovieByTitle, hfl]
  · intro op s' h
    cases op with
    | createUserOp a b n p =>
      simp only [applyOp, createUser]
      split
      · exact h
      · split
        · exact h
        · exact h
    | loginUserOp e pw =>
      simp only [applyOp, loginUser]
      split
      · exact h
      · split
        · exact h
        · exact h
    | logoutUserOp =>
      simp only [applyOp, logoutUser]
      split
      · exact h
      · exact h
    | getMoviesOp => exact h
    | getMovieByIdOp i =>
      simp only [applyOp, getMovieById]
      split
      · exact h
      · exact h
    | getMovieByTitleOp t =>
      simp only [applyOp, getMovieByTitle]
      split
      · exact h
      · exact h
    | createMovieOp u n p =>
      simp only [applyOp, createMovie]
      split
      · exact h
      · next hcond =>
        intro mv hmv
        rcases Store.mem_values_insert hmv with h1 | h1
        · subst h1
          simp only [moviePayloadMissing, Bool.or_eq_true, beq_iff_eq, not_or] at hcond
          exact hcond.1.1.1.1
        · exact h mv h1
    | updateMovieOp i p n =>
      simp only [applyOp, updateMovie]
      split
      · exact h
      · next hcond =>
        split
        · intro mv hmv
          rcases Store.mem_values_insert hmv with h1 | h1
          · subst h1
            simp only [moviePayloadMissing, Bool.or_eq_true, beq_iff_eq, not_or] at hcond
            exact hcond.1.1.1.1
          · exact h mv h1
        · exact h
    | deleteMovieOp i =>
      simp only [applyOp, deleteMovie]
      split
      · intro mv hmv
        exact h mv (Store.mem_values_erase hmv)
      · exact h
    | getWatchlistOp =>
      simp only [applyOp, getWatchlist]
      split
      · exact h
      · split
        · exact h
        · exact h
    | addMovieToWatchlistOp m =>
      simp only [applyOp, addMovieToWatchlist]
      split
      · exact h
      · split
        · split
          · exact h
          · exact h
        · exact h
    | removeMovieFromWatchlistOp m =>
      simp only [applyOp, removeMovieFromWatchlist]
      split
      · exact h
      · split
        · split
          · exact h
          · exact h
        · exact h

/-- Witness for C7: with two stored movies sharing the title, the first one
in storage order is returned; the empty title fails with the NotFound
message. -/
theorem c7_getMovieByTitle_first_match_and_empty_title_witness :
    getMovieByTitle "The Godfather" stateLoggedIn = (Except.ok movieM1, stateLoggedIn) ∧
    getMovieByTitle "" stateLoggedIn =
      (Except.error ("A movie with title " ++ "" ++ " not found"), stateLoggedIn) := by
  constructor
  · exact (c7_getMovieByTitle_first_match_and_empty_title "The Godfather" stateLoggedIn).2.1
      [] movieM1 [movieM2] rfl (by simp) rfl
  · refine (c7_getMovieByTitle_first_match_and_empty_title "" stateLoggedIn).2.2.1 ?_
    intro mv hmv
    have hm : mv = movieM1 ∨ mv = movieM2 := by
      simpa [stateLoggedIn, Store.values] using hmv
    rcases hm with h1 | h1 <;> subst h1 <;> simp [movieM1, movieM2]

end MoviesCanister
